import Mathlib

/-!
Verification of `serverless-plugin-warmup` (`src/warmer.js`).

The file shallowly embeds the three synthesizers of the plugin
(`addWarmUpFunctionRoleToResources`, `createWarmUpFunctionArtifact`,
`addWarmUpFunctionToService`) together with the runtime behaviour of the
script that `createWarmUpFunctionArtifact` renders (its `getConcurrency`
helper and its `warmUp` entry point), and proves the specified properties
about them.

JavaScript objects are embedded as association lists over `Json`, a small
inductive mirroring the JSON-serialisable values the plugin builds.  Numbers
of the embedded scripts are JavaScript integers-or-NaN, embedded as
`Option Int` with `none` playing NaN.
-/

/-- JSON-style values, used for the declarative documents the plugin emits
(IAM role resources, function-manifest entries) and for the function list
serialised into the generated script.  Objects keep their key order, as
JavaScript objects do. -/
inductive Json where
  | null : Json
  | bool : Bool → Json
  | num : Int → Json
  | str : String → Json
  | arr : List Json → Json
  | obj : List (String × Json) → Json
deriving Repr, Inhabited

/-- JavaScript truthiness of a `Json` value (`undefined` is handled by the
`Option` layer at use sites). -/
def Json.truthy : Json → Bool
  | .null => false
  | .bool b => b
  | .num n => n != 0
  | .str s => s != ""
  | .arr _ => true
  | .obj _ => true

/-- Truthiness of a possibly-undefined value. -/
def optTruthy : Option Json → Bool
  | none => false
  | some j => j.truthy

/-- Field access on a `Json` object (`undefined` when absent or not an
object). -/
def Json.lookupKey : Json → String → Option Json
  | .obj kvs, k => kvs.lookup k
  | _, _ => none

/-- Index access on a `Json` array. -/
def Json.item : Json → Nat → Option Json
  | .arr xs, i => xs.get? i
  | _, _ => none

/-- Assignment `m[k] = v` on a JavaScript object embedded as an association
list: an existing key keeps its position and gets the new value, a fresh key
is appended. -/
def setKey {α : Type} : List (String × α) → String → α → List (String × α)
  | [], k, v => [(k, v)]
  | (k', v') :: rest, k, v =>
    if k' = k then (k, v) :: rest else (k', v') :: setKey rest k v

theorem lookup_setKey_self {α : Type} (m : List (String × α)) (k : String) (v : α) :
    (setKey m k v).lookup k = some v := by
  induction m with
  | nil => simp [setKey, List.lookup]
  | cons p rest ih =>
    obtain ⟨k', v'⟩ := p
    by_cases h : k' = k
    · subst h
      simp [setKey, List.lookup]
    · have hk : (k == k') = false := by
        simp only [beq_eq_false_iff_ne]
        exact fun e => h e.symm
      simp [setKey, h, List.lookup, hk, ih]

/-- `List.lookup` splits over append: the left list is consulted first. -/
theorem lookup_append {α : Type} (k : String) (l₁ l₂ : List (String × α)) :
    (l₁ ++ l₂).lookup k =
      match l₁.lookup k with
      | some v => some v
      | none => l₂.lookup k := by
  induction l₁ with
  | nil => simp [List.lookup]
  | cons p rest ih =>
    obtain ⟨k', v'⟩ := p
    cases hk : (k == k') with
    | true => simp [List.lookup, hk]
    | false => simp [List.lookup, hk, ih]

/-- Modelled from the spec: the `capitalize` string helper imported from
`src/utils.js`, which is not part of the available sources.  Per the spec the
synthesized logical role identifier is `WarmUpPlugin` + PascalCase(warmer
name) + `Role`, so `capitalize` upper-cases the first character and keeps the
rest. -/
def capitalize (s : String) : String :=
  match s.toList with
  | [] => ""
  | c :: cs => String.mk (c.toUpper :: cs)

/-- One entry of `warmerConfig.functions`: a reference to a target function
to be warmed. -/
structure FnRef where
  name : String
deriving Repr, DecidableEq

/-- The warmer-group configuration consumed (and, for `role`, written) by the
synthesizers.  `none` plays JavaScript `undefined`. -/
structure WarmerConfig where
  name : String
  role : Option String := none
  roleName : Option Json := none
  functions : List FnRef := []
  events : Json := .arr []
  pathHandler : String := ""
  memorySize : Json := .null
  timeout : Json := .null
  environment : List (String × Json) := []
  architecture : Option Json := none
  tracing : Option Json := none
  logRetentionInDays : Option Json := none
  package : Json := .null
  tags : Option Json := none
  vpc : Option Json := none
deriving Repr

/-- The `resources` section of the serverless service aggregate: an optional
`Resources` mapping (either level may be absent, `warmer.js` initialises
both defensively). -/
structure ServiceResources where
  Resources : Option (List (String × Json)) := none
deriving Repr

/-- The externally-owned service aggregate object mutated by the
synthesizers. -/
structure Service where
  service : String
  resources : Option ServiceResources := none
  functions : List (String × Json) := []
deriving Repr

/-- The logical role identifier computed on line 14 of `warmer.js`:
`WarmUpPlugin${capitalize(warmerName)}Role`. -/
def roleLogicalName (warmerName : String) : String :=
  "WarmUpPlugin" ++ capitalize warmerName ++ "Role"

/-- The wildcard ARN pattern granted invoke permission for one target
function (`warmer.js` line 80). -/
def lambdaInvokeArnPattern (fnName : String) : String :=
  "arn:$\x7bAWS::Partition\x7d:lambda:$\x7bAWS::Region\x7d:$\x7bAWS::AccountId\x7d:function:"
    ++ fnName ++ "*"

/-- The `Fn::Sub` resource entries of the invoke-permission statement, one
per target function, in order (`warmer.js` lines 79-81). -/
def invokeResourceEntries (fns : List FnRef) : List Json :=
  fns.map fun fn => Json.obj [("Fn::Sub", Json.str (lambdaInvokeArnPattern fn.name))]

/-- The `lambda:InvokeFunction` policy statement (`warmer.js` lines 76-82). -/
def invokePolicyStatement (fns : List FnRef) : Json :=
  .obj [("Effect", .str "Allow"),
        ("Action", .arr [.str "lambda:InvokeFunction"]),
        ("Resource", .arr (invokeResourceEntries fns))]

/-- The IAM role resource document built on lines 25-98 of `warmer.js`. -/
def warmUpRoleResource (svcName stage warmerName : String) (wc : WarmerConfig) : Json :=
  .obj [
    ("Type", .str "AWS::IAM::Role"),
    ("Properties", .obj [
      ("Path", .str "/"),
      ("RoleName",
        match wc.roleName with
        | some rn =>
          if rn.truthy then rn else
            .obj [("Fn::Join", .arr [.str "-",
              .arr [.str svcName, .str stage, .obj [("Ref", .str "AWS::Region")],
                    .str warmerName.toLower, .str "role"]])]
        | none =>
          .obj [("Fn::Join", .arr [.str "-",
            .arr [.str svcName, .str stage, .obj [("Ref", .str "AWS::Region")],
                  .str warmerName.toLower, .str "role"]])]),
      ("AssumeRolePolicyDocument", .obj [
        ("Version", .str "2012-10-17"),
        ("Statement", .arr [
          .obj [("Effect", .str "Allow"),
                ("Principal", .obj [("Service", .arr [.str "lambda.amazonaws.com"])]),
                ("Action", .str "sts:AssumeRole")]])]),
      ("Policies", .arr [
        .obj [
          ("PolicyName", .obj [("Fn::Join", .arr [.str "-",
            .arr [.str svcName, .str stage, .str "warmer", .str warmerName.toLower,
                  .str "policy"]])]),
          ("PolicyDocument", .obj [
            ("Version", .str "2012-10-17"),
            ("Statement", .arr [
              .obj [("Effect", .str "Allow"),
                    ("Action", .arr [.str "logs:CreateLogGroup", .str "logs:CreateLogStream"]),
                    ("Resource", .arr [.obj [("Fn::Sub", .str
                      ("arn:$\x7bAWS::Partition\x7d:logs:$\x7bAWS::Region\x7d:$\x7bAWS::AccountId\x7d:log-group:/aws/lambda/"
                        ++ wc.name ++ ":*"))]])],
              .obj [("Effect", .str "Allow"),
                    ("Action", .arr [.str "logs:PutLogEvents"]),
                    ("Resource", .arr [.obj [("Fn::Sub", .str
                      ("arn:$\x7bAWS::Partition\x7d:logs:$\x7bAWS::Region\x7d:$\x7bAWS::AccountId\x7d:log-group:/aws/lambda/"
                        ++ wc.name ++ ":*:*"))]])],
              invokePolicyStatement wc.functions,
              .obj [("Effect", .str "Allow"),
                    ("Action", .arr [.str "ec2:CreateNetworkInterface",
                                     .str "ec2:DescribeNetworkInterfaces",
                                     .str "ec2:DetachNetworkInterface",
                                     .str "ec2:DeleteNetworkInterface"]),
                    ("Resource", .str "*")]])])]])])]

/-- `addWarmUpFunctionRoleToResources` (`warmer.js` lines 12-99): writes the
logical role name onto the config, defensively initialises
`service.resources.Resources`, and inserts the role document under the role
name.  Mutation is embedded as returning the updated service and config. -/
def addWarmUpFunctionRoleToResources (service : Service) (stage warmerName : String)
    (wc : WarmerConfig) : Service × WarmerConfig :=
  let wc' := { wc with role := some (roleLogicalName warmerName) }
  let res0 := match service.resources with
    | some r => r
    | none => {}
  let resMap := match res0.Resources with
    | some m => m
    | none => []
  let resMap' := setKey resMap (roleLogicalName warmerName)
    (warmUpRoleResource service.service stage warmerName wc')
  ({ service with resources := some { Resources := some resMap' } }, wc')

/-- Lookup of a logical resource in `service.resources.Resources`. -/
def serviceResource (svc : Service) (k : String) : Option Json :=
  match svc.resources with
  | some r =>
    match r.Resources with
    | some m => m.lookup k
    | none => none
  | none => none

/-- `pathHandler.split(path.sep).join(path.posix.sep)` (`warmer.js` line
209), with the platform separator `sep` a parameter. -/
def toPosixPath (sep : Char) (s : String) : String :=
  String.intercalate "/" (s.split (· = sep))

/-- A conditional spread `...(o && keep(o) ? { key: o } : {})`: one
key/value segment present exactly when the optional value exists and passes
the keep test. -/
def condSeg (key : String) (o : Option Json) (keep : Json → Bool) : List (String × Json) :=
  match o with
  | some j => if keep j then [(key, j)] else []
  | none => []

/-- A JavaScript value is always kept (`!== undefined` spreads). -/
def keepAlways : Json → Bool := fun _ => true

/-- The function-manifest entry built by `addWarmUpFunctionToService`
(`warmer.js` lines 206-228), with the conditional spreads embedded as
conditional segments of the key list (truthiness-guarded spreads use
`Json.truthy`, definedness-guarded ones `keepAlways`). -/
def functionManifestEntry (warmerName : String) (wc : WarmerConfig) (sep : Char) : Json :=
  .obj (
    [("description", .str ("Serverless WarmUp Plugin (warmer \"" ++ warmerName ++ "\")")),
     ("events", wc.events),
     ("handler", .str (toPosixPath sep wc.pathHandler)),
     ("memorySize", wc.memorySize),
     ("name", .str wc.name)]
    ++ condSeg "architecture" wc.architecture Json.truthy
    ++ [("runtime", .str "nodejs22.x"),
        ("package", wc.package),
        ("timeout", wc.timeout)]
    ++ (if wc.environment.length ≠ 0 then [("environment", .obj wc.environment)] else [])
    ++ condSeg "tracing" wc.tracing keepAlways
    ++ condSeg "logRetentionInDays" wc.logRetentionInDays keepAlways
    ++ condSeg "roleName" wc.roleName Json.truthy
    ++ condSeg "role" (wc.role.map Json.str) Json.truthy
    ++ condSeg "tags" wc.tags Json.truthy
    ++ condSeg "vpc" wc.vpc Json.truthy
    ++ [("layers", .arr [])])

/-- `addWarmUpFunctionToService` (`warmer.js` lines 204-229): inserts the
manifest entry into `service.functions` under
`warmUpPlugin${capitalize(warmerName)}`. -/
def addWarmUpFunctionToService (service : Service) (warmerName : String)
    (wc : WarmerConfig) (sep : Char) : Service :=
  { service with
    functions := setKey service.functions ("warmUpPlugin" ++ capitalize warmerName)
      (functionManifestEntry warmerName wc sep) }

/-! ## The generated runtime script

`createWarmUpFunctionArtifact` renders a script (lines 112-189 of
`warmer.js`).  The definitions below embed the behaviour of that script:
its `getConcurrency` helper and `warmUp` entry point.  JavaScript numbers
produced by `parseInt` are integers or NaN, embedded as `Option Int` with
`none` for NaN. -/

/-- The environment (`process.env`) seen by the generated script at its own
runtime. -/
abbrev Env := List (String × String)

/-- Truthiness of a possibly-undefined environment value: defined and
non-empty. -/
def envTruthy : Option String → Bool
  | none => false
  | some s => s != ""

/-- ASCII whitespace skipped by JavaScript `parseInt`. -/
def isJsWhitespace (c : Char) : Bool :=
  c == ' ' || c == '\t' || c == '\n' || c == '\r' || c == '\x0b' || c == '\x0c'

/-- Value of a hexadecimal digit, if any. -/
def hexDigitVal (c : Char) : Option Nat :=
  if '0' ≤ c ∧ c ≤ '9' then some (c.toNat - 48)
  else if 'a' ≤ c ∧ c ≤ 'f' then some (c.toNat - 87)
  else if 'A' ≤ c ∧ c ≤ 'F' then some (c.toNat - 55)
  else none

/-- Leading hexadecimal digits, NaN when there are none. -/
def parseHexDigits (sign : Int) (cs : List Char) : Option Int :=
  let ds := cs.takeWhile (fun c => (hexDigitVal c).isSome)
  if ds = [] then none
  else some (sign * (ds.foldl (fun n c => n * 16 + ((hexDigitVal c).getD 0)) 0 : Nat))

/-- Leading decimal digits, NaN when there are none. -/
def parseDecDigits (sign : Int) (cs : List Char) : Option Int :=
  let ds := cs.takeWhile Char.isDigit
  if ds = [] then none
  else some (sign * (ds.foldl (fun n c => n * 10 + (c.toNat - 48)) 0 : Nat))

/-- JavaScript `parseInt(s)` with no radix argument, as called by the
generated script: skip leading whitespace, take an optional sign, then the
longest prefix of decimal digits (or, after `0x`/`0X`, hexadecimal digits);
no digits yields NaN (`none`). -/
def parseIntJS (s : String) : Option Int :=
  let cs0 := s.toList.dropWhile isJsWhitespace
  let p : Int × List Char :=
    match cs0 with
    | '-' :: rest => (-1, rest)
    | '+' :: rest => (1, rest)
    | _ => (1, cs0)
  match p.2 with
  | '0' :: 'x' :: rest => parseHexDigits p.1 rest
  | '0' :: 'X' :: rest => parseHexDigits p.1 rest
  | cs => parseDecDigits p.1 cs

/-- Rendering of a JavaScript number into a template literal: NaN prints as
`NaN`. -/
def jsNumToString : Option Int → String
  | none => "NaN"
  | some n => toString n

/-- The per-function environment-variable name of line 138 of `warmer.js`:
`WARMUP_CONCURRENCY_` followed by the function name upper-cased with every
hyphen replaced by an underscore (`toUpperCase` then the replacement, fused
into one character-wise pass; upper-casing leaves a hyphen unchanged, so the
two passes of the source commute with the fusion). -/
def perFunctionConcurrencyKey (name : String) : String :=
  "WARMUP_CONCURRENCY_" ++ String.mk (name.toList.map fun c =>
    if c.toUpper = '-' then '_' else c.toUpper)

/-- The generated `logVerbose` helper: its body is `console.log(str)` when
the script was generated with `verbose`, and empty otherwise (lines
133-135).  Embedded as the list of lines it writes to standard output. -/
def logVerbose (verbose : Bool) (s : String) : List String :=
  if verbose then [s] else []

/-- Per-function invocation parameters baked into the generated script.
`concurrency` holds the string form of the embedded `config.concurrency`
value, which the script passes through `parseInt`. -/
structure FunctionConfig where
  concurrency : String := ""
  clientContext : Option String := none
  payload : Option String := none
  «alias» : Option String := none
deriving Repr, DecidableEq

/-- An element of the function list embedded in the generated script. -/
structure FunctionTarget where
  name : String
  config : FunctionConfig
deriving Repr, DecidableEq

/-- The generated script's `getConcurrency(func, envVars)` (lines 137-155):
the resolved concurrency together with the line handed to `logVerbose`.
The `verbose` flag is the generation-time flag baked into `logVerbose`. -/
def getConcurrency (verbose : Bool) (func : FunctionTarget) (envVars : Env) :
    Option Int × List String :=
  let functionConcurrency := envVars.lookup (perFunctionConcurrencyKey func.name)
  if envTruthy functionConcurrency then
    let concurrency := parseIntJS (functionConcurrency.getD "")
    (concurrency, logVerbose verbose
      ("Warming up function: " ++ func.name ++ " with concurrency: "
        ++ jsNumToString concurrency ++ " (from function-specific environment variable)"))
  else if envTruthy (envVars.lookup "WARMUP_CONCURRENCY") then
    let concurrency := parseIntJS ((envVars.lookup "WARMUP_CONCURRENCY").getD "")
    (concurrency, logVerbose verbose
      ("Warming up function: " ++ func.name ++ " with concurrency: "
        ++ jsNumToString concurrency ++ " (from global environment variable)"))
  else
    let concurrency := parseIntJS func.config.concurrency
    (concurrency, logVerbose verbose
      ("Warming up function: " ++ func.name ++ " with concurrency: "
        ++ jsNumToString concurrency))

/-- UTF-8 encoding of one character, as `Buffer.from` performs on the
envelope string. -/
def utf8Bytes (c : Char) : List Nat :=
  let n := c.toNat
  if n < 128 then [n]
  else if n < 2048 then [192 + n / 64, 128 + n % 64]
  else if n < 65536 then [224 + n / 4096, 128 + n / 64 % 64, 128 + n % 64]
  else [240 + n / 262144, 128 + n / 4096 % 64, 128 + n / 64 % 64, 128 + n % 64]

/-- UTF-8 bytes of a string. -/
def utf8Encode (s : String) : List Nat := (s.toList.map utf8Bytes).flatten

/-- The base64 alphabet. -/
def base64Table : List Char :=
  "ABCDEFGHIJKLMNOPQRSTUVWXYZabcdefghijklmnopqrstuvwxyz0123456789+/".toList

/-- Character of one 6-bit group. -/
def b64Char (n : Nat) : Char := base64Table.getD n 'A'

/-- Standard base64 of a byte list, as `Buffer.prototype.toString('base64')`
produces. -/
def base64Encode : List Nat → String
  | [] => ""
  | [a] => String.mk [b64Char (a / 4), b64Char (a % 4 * 16), '=', '=']
  | [a, b] => String.mk [b64Char (a / 4), b64Char (a % 4 * 16 + b / 16), b64Char (b % 16 * 4), '=']
  | a :: b :: c :: rest =>
    String.mk [b64Char (a / 4), b64Char (a % 4 * 16 + b / 16),
               b64Char (b % 16 * 4 + c / 64), b64Char (c % 64)] ++ base64Encode rest

/-- `Buffer.from(s).toString('base64')`. -/
def base64EncodeStr (s : String) : String := base64Encode (utf8Encode s)

/-- The argument object of the generated script's `new InvokeCommand`
(lines 167-176). -/
structure InvokeCommand where
  ClientContext : Option String
  FunctionName : String
  InvocationType : String
  LogType : String
  Qualifier : Option String
  Payload : Option String
deriving Repr, DecidableEq

/-- Construction of the invocation request for one target function (lines
163-176): client context prefers `config.clientContext` over
`config.payload` (fallback only when the former is `undefined`), is
base64-encoded inside a `{"custom": ...}` envelope when truthy, and omitted
otherwise; the qualifier is `config.alias || process.env.SERVERLESS_ALIAS`;
the payload is `config.payload` verbatim. -/
def buildInvokeCommand (func : FunctionTarget) (envVars : Env) : InvokeCommand :=
  let clientContext := match func.config.clientContext with
    | some c => some c
    | none => func.config.payload
  { ClientContext :=
      match clientContext with
      | some c =>
        if c ≠ "" then some (base64EncodeStr ("\x7b\"custom\":" ++ c ++ "\x7d")) else none
      | none => none
    FunctionName := func.name
    InvocationType := "RequestResponse"
    LogType := "None"
    Qualifier :=
      match func.config.«alias» with
      | some a => if a ≠ "" then some a else envVars.lookup "SERVERLESS_ALIAS"
      | none => envVars.lookup "SERVERLESS_ALIAS"
    Payload := func.config.payload }

/-- `Array(len)` of JavaScript: a list of `len` holes when `len` is a valid
array length (an integer with `0 ≤ len < 2^32`), and a thrown `RangeError`
otherwise — in particular for NaN and for negative values. -/
def arrayOfLength : Option Int → Except String (List Unit)
  | none => .error "RangeError: Invalid array length"
  | some k =>
    if 0 ≤ k ∧ k < 4294967296 then .ok (List.replicate k.toNat ())
    else .error "RangeError: Invalid array length"

/-- Outcome oracle for `lambdaClient.send`: for a request and the index of
its copy within the batch, `none` is a fulfilled send and `some e` a
rejection with error detail `e`. -/
abbrev SendOracle := InvokeCommand → Nat → Option String

/-- Result of the async arrow the generated script maps over its function
list (lines 160-186): the built request, how many `send` calls the batch
issued, the boolean the arrow returns, the lines handed to `logVerbose`, and
the `console.error` calls (message prefix paired with error detail).
`Array(concurrency)` sits inside the `try`, so an invalid length (NaN,
negative) is caught: zero sends, a logged error, and `false`.  Otherwise
`Promise.all` initiates all `concurrency` sends and the batch fails if any
of them rejects (the first failing index supplies the detail). -/
structure FunctionBatchResult where
  command : InvokeCommand
  issued : Nat
  result : Bool
  verboseLog : List String
  errorLog : List (String × String)
deriving Repr, DecidableEq

/-- The async arrow mapped over the embedded function list (lines 160-186),
as documented on `FunctionBatchResult`. -/
def runFunctionBatch (verbose : Bool) (send : SendOracle) (envVars : Env)
    (func : FunctionTarget) : FunctionBatchResult :=
  let c := getConcurrency verbose func envVars
  let cmd := buildInvokeCommand func envVars
  match arrayOfLength c.1 with
  | .error e =>
    { command := cmd, issued := 0, result := false, verboseLog := c.2,
      errorLog := [("Warm Up Invoke Error: " ++ func.name, e)] }
  | .ok slots =>
    let n := slots.length
    match (List.range n).filterMap (fun i => send cmd i) with
    | [] =>
      { command := cmd, issued := n, result := true,
        verboseLog := c.2 ++ logVerbose verbose ("Warm Up Invoke Success: " ++ func.name),
        errorLog := [] }
    | e :: _ =>
      { command := cmd, issued := n, result := false, verboseLog := c.2,
        errorLog := [("Warm Up Invoke Error: " ++ func.name, e)] }

/-- Observable outcome of one run of the generated `warmUp` entry point:
lines written to standard output before the batches (`Warm Up Start`), the
per-function batch results in function-list order, and the summary line. -/
structure WarmUpRun where
  startLog : List String
  batches : List FunctionBatchResult
  summaryLog : List String
deriving Repr, DecidableEq

/-- `invokes.filter(r => !r).length` of line 188: the aggregate count of
failed batches. -/
def invokeErrors (batches : List FunctionBatchResult) : Nat :=
  ((batches.map (·.result)).filter (fun r => !r)).length

/-- The generated `warmUp` entry point (lines 157-189): run every function's
batch (the per-function arrows are independent and `Promise.all` waits for
all of them; individual failures are caught inside each arrow, so the entry
point always completes), then log the aggregate failure count. -/
def warmUp (verbose : Bool) (send : SendOracle) (envVars : Env)
    (functions : List FunctionTarget) : WarmUpRun :=
  let batches := functions.map (runFunctionBatch verbose send envVars)
  { startLog := logVerbose verbose "Warm Up Start"
    batches := batches
    summaryLog := logVerbose verbose
      ("Warm Up Finished with " ++ toString (invokeErrors batches) ++ " invoke errors") }

/-! ## The rendered artifact text

`createWarmUpFunctionArtifact` renders the script as text (lines 112-189)
and writes it to `handlerFolder/index.mjs`; with tracing it then provisions
one extra dependency (lines 195-198).  The text is a pure function of the
function list, the tracing and verbose flags and the region. -/

/-- Hexadecimal digit character. -/
def hexDig (n : Nat) : Char := "0123456789abcdef".toList.getD n '0'

/-- `JSON.stringify` escaping of one character inside a string literal. -/
def quoteJsonChar (c : Char) : String :=
  if c = '"' then "\\\""
  else if c = '\\' then "\\\\"
  else if c = '\n' then "\\n"
  else if c = '\r' then "\\r"
  else if c = '\t' then "\\t"
  else if c = '\x08' then "\\b"
  else if c = '\x0c' then "\\f"
  else if c.toNat < 32 then "\\u00" ++ String.mk [hexDig (c.toNat / 16), hexDig (c.toNat % 16)]
  else String.mk [c]

/-- `JSON.stringify` of a string value. -/
def quoteJson (s : String) : String :=
  "\"" ++ String.join (s.toList.map quoteJsonChar) ++ "\""

mutual

/-- `JSON.stringify(v, null, '  ')` at nesting prefix `gap`: the
pretty-printed serialisation with two-space indent used on line 131 of
`warmer.js` to embed the function list. -/
def renderJson (gap : String) : Json → String
  | .null => "null"
  | .bool b => if b then "true" else "false"
  | .num n => toString n
  | .str s => quoteJson s
  | .arr [] => "[]"
  | .arr (x :: xs) =>
    "[\n" ++ String.intercalate ",\n" (renderJsonItems (gap ++ "  ") (x :: xs))
      ++ "\n" ++ gap ++ "]"
  | .obj [] => "\x7b\x7d"
  | .obj (kv :: kvs) =>
    "\x7b\n" ++ String.intercalate ",\n" (renderJsonMembers (gap ++ "  ") (kv :: kvs))
      ++ "\n" ++ gap ++ "\x7d"

/-- Array items, one line each. -/
def renderJsonItems (gap : String) : List Json → List String
  | [] => []
  | x :: xs => (gap ++ renderJson gap x) :: renderJsonItems gap xs

/-- Object members, one line each. -/
def renderJsonMembers (gap : String) : List (String × Json) → List String
  | [] => []
  | (k, v) :: kvs =>
    (gap ++ quoteJson k ++ ": " ++ renderJson gap v) :: renderJsonMembers gap kvs

end

/-- The module imported by the generated script for the tracing wrapper
(`warmer.js` line 126). -/
def xrayImportedModule : String := "aws-xray-sdk"

/-- The package installed into the handler folder by the
dependency-provisioning step (`warmer.js` line 197). -/
def xrayInstalledPackage : String := "aws-xray-sdk-core"

/-- The fragment spliced into the script when tracing is enabled (lines
126-127). -/
def tracingFragment : String :=
  "import * as AWSXRay from \x27" ++ xrayImportedModule ++ "\x27;\n"
    ++ "const lambdaClient = AWSXRay.captureAWSv3Client(uninstrumentedLambdaClient);"

/-- The client-selection fragment (lines 124-129). -/
def clientSelection (tracing : Bool) : String :=
  if tracing then tracingFragment
  else "const lambdaClient = uninstrumentedLambdaClient;"

/-- The script text up to and including the client construction (template
lines 112-123). -/
def scriptHead (region : String) : String :=
  "\n/** Generated by Serverless WarmUp Plugin **/\n\n"
    ++ "import \x7b LambdaClient, InvokeCommand \x7d from \x27@aws-sdk/client-lambda\x27;\n"
    ++ "import \x7b NodeHttpHandler \x7d from \x27@smithy/node-http-handler\x27;\n\n"
    ++ "const uninstrumentedLambdaClient = new LambdaClient(\x7b\n"
    ++ "  apiVersion: \x272015-03-31\x27,\n"
    ++ "  region: \x27" ++ region ++ "\x27,\n"
    ++ "  requestHandler: new NodeHttpHandler(\x7b connectionTimeout: 1000 \x7d),\n"
    ++ "\x7d);\n\n"

/-- The `logVerbose` declaration of the script (template lines 133-135). -/
def logVerboseDecl (verbose : Bool) : String :=
  "function logVerbose(str) \x7b\n  "
    ++ (if verbose then "console.log(str);" else "")
    ++ "\n\x7d\n\n"

/-- The fixed remainder of the script: its `getConcurrency` helper and
`warmUp` entry point (template lines 137-189). -/
def scriptTail : String :=
  "function getConcurrency(func, envVars) \x7b\n"
    ++ "  const functionConcurrency = envVars[`WARMUP_CONCURRENCY_$\x7bfunc.name.toUpperCase().replace(/-/g, \x27_\x27)\x7d`];\n\n"
    ++ "  if (functionConcurrency) \x7b\n"
    ++ "    const concurrency = parseInt(functionConcurrency);\n"
    ++ "    logVerbose(`Warming up function: $\x7bfunc.name\x7d with concurrency: $\x7bconcurrency\x7d (from function-specific environment variable)`);\n"
    ++ "    return concurrency;\n  \x7d\n\n"
    ++ "  if (envVars.WARMUP_CONCURRENCY) \x7b\n"
    ++ "    const concurrency = parseInt(envVars.WARMUP_CONCURRENCY);\n"
    ++ "    logVerbose(`Warming up function: $\x7bfunc.name\x7d with concurrency: $\x7bconcurrency\x7d (from global environment variable)`);\n"
    ++ "    return concurrency;\n  \x7d\n\n"
    ++ "  const concurrency = parseInt(func.config.concurrency);\n"
    ++ "  logVerbose(`Warming up function: $\x7bfunc.name\x7d with concurrency: $\x7bconcurrency\x7d`);\n"
    ++ "  return concurrency;\n\x7d\n\n"
    ++ "export const warmUp = async (event, context) => \x7b\n"
    ++ "  logVerbose(\x27Warm Up Start\x27);\n\n"
    ++ "  const invokes = await Promise.all(functions.map(async (func) => \x7b\n"
    ++ "    const concurrency = getConcurrency(func, process.env);\n\n"
    ++ "    const clientContext = func.config.clientContext !== undefined\n"
    ++ "      ? func.config.clientContext\n"
    ++ "      : func.config.payload;\n\n"
    ++ "    const invokeCommand = new InvokeCommand(\x7b\n"
    ++ "      ClientContext: clientContext\n"
    ++ "        ? Buffer.from(`\x7b\"custom\":$\x7bclientContext\x7d\x7d`).toString(\x27base64\x27)\n"
    ++ "        : undefined,\n"
    ++ "      FunctionName: func.name,\n"
    ++ "      InvocationType: \x27RequestResponse\x27,\n"
    ++ "      LogType: \x27None\x27,\n"
    ++ "      Qualifier: func.config.alias || process.env.SERVERLESS_ALIAS,\n"
    ++ "      Payload: func.config.payload\n    \x7d);\n\n"
    ++ "    try \x7b\n"
    ++ "      await Promise.all(Array(concurrency).fill(0).map(async () => await lambdaClient.send(invokeCommand)));\n"
    ++ "      logVerbose(`Warm Up Invoke Success: $\x7bfunc.name\x7d`);\n"
    ++ "      return true;\n"
    ++ "    \x7d catch (e) \x7b\n"
    ++ "      console.error(`Warm Up Invoke Error: $\x7bfunc.name\x7d`, e);\n"
    ++ "      return false;\n    \x7d\n  \x7d));\n\n"
    ++ "  logVerbose(`Warm Up Finished with $\x7binvokes.filter(r => !r).length\x7d invoke errors`);\n\x7d"

/-- The full text of the generated script: the template of lines 112-189
with the region, the client-selection fragment, the serialised function
list and the `logVerbose` body spliced in. -/
def buildScript (functions : Json) (tracing verbose : Bool) (region : String) : String :=
  scriptHead region
    ++ clientSelection tracing
    ++ "\n\nconst functions = " ++ renderJson "" functions ++ ";\n\n"
    ++ logVerboseDecl verbose
    ++ scriptTail

/-- Commands run in the handler folder after the write (lines 195-198):
only when tracing is enabled, `npm init` then the install of the extra
runtime dependency. -/
def installCommands (tracing : Bool) : List String :=
  if tracing then ["npm init -y", "npm install --save " ++ xrayInstalledPackage] else []

/-- The externally visible effect of `createWarmUpFunctionArtifact`: which
file is written under the handler folder, with which text, and which
commands are then run there. -/
structure ArtifactEffect where
  folder : String
  fileName : String
  text : String
  commands : List String
deriving Repr, DecidableEq

/-- `createWarmUpFunctionArtifact(functions, tracing, verbose, region,
handlerFolder)` (lines 111-199), embedded as the effect it performs.  The
function list argument is the JSON value serialised into the script. -/
def createWarmUpFunctionArtifact (functions : Json) (tracing verbose : Bool)
    (region handlerFolder : String) : ArtifactEffect :=
  { folder := handlerFolder
    fileName := "index.mjs"
    text := buildScript functions tracing verbose region
    commands := installCommands tracing }

/-! ## Helper lemmas -/

theorem getConcurrency_perFunction (verbose : Bool) (func : FunctionTarget) (env : Env)
    (s : String) (hs : env.lookup (perFunctionConcurrencyKey func.name) = some s)
    (hne : s ≠ "") :
    (getConcurrency verbose func env).1 = parseIntJS s := by
  simp [getConcurrency, hs, envTruthy, hne]

theorem getConcurrency_global (verbose : Bool) (func : FunctionTarget) (env : Env)
    (h : envTruthy (env.lookup (perFunctionConcurrencyKey func.name)) = false)
    (s : String) (hs : env.lookup "WARMUP_CONCURRENCY" = some s) (hne : s ≠ "") :
    (getConcurrency verbose func env).1 = parseIntJS s := by
  simp only [getConcurrency]
  rw [h, hs]
  simp [envTruthy, hne]

theorem getConcurrency_static (verbose : Bool) (func : FunctionTarget) (env : Env)
    (h₁ : envTruthy (env.lookup (perFunctionConcurrencyKey func.name)) = false)
    (h₂ : envTruthy (env.lookup "WARMUP_CONCURRENCY") = false) :
    (getConcurrency verbose func env).1 = parseIntJS func.config.concurrency := by
  simp only [getConcurrency]
  rw [h₁, h₂]
  simp

theorem getConcurrency_val_verbose_irrel (v v' : Bool) (func : FunctionTarget) (env : Env) :
    (getConcurrency v func env).1 = (getConcurrency v' func env).1 := by
  simp only [getConcurrency]
  cases h₁ : envTruthy (env.lookup (perFunctionConcurrencyKey func.name)) <;>
    cases h₂ : envTruthy (env.lookup "WARMUP_CONCURRENCY") <;>
      simp [h₁, h₂]

theorem runFunctionBatch_command (verbose : Bool) (send : SendOracle) (env : Env)
    (func : FunctionTarget) :
    (runFunctionBatch verbose send env func).command = buildInvokeCommand func env := by
  simp only [runFunctionBatch]
  split
  · rfl
  · split <;> rfl

theorem runFunctionBatch_issued_of_nat (verbose : Bool) (send : SendOracle) (env : Env)
    (func : FunctionTarget) (n : Nat)
    (h : (getConcurrency verbose func env).1 = some (n : Int))
    (hlt : (n : Int) < 4294967296) :
    (runFunctionBatch verbose send env func).issued = n := by
  have hao : arrayOfLength (some (n : Int)) = .ok (List.replicate n ()) := by
    simp [arrayOfLength, hlt]
  simp only [runFunctionBatch, h, hao]
  split <;> simp

theorem runFunctionBatch_issued_zero_of_nan (verbose : Bool) (send : SendOracle) (env : Env)
    (func : FunctionTarget) (h : (getConcurrency verbose func env).1 = none) :
    (runFunctionBatch verbose send env func).issued = 0 := by
  simp only [runFunctionBatch, h]
  rfl

theorem warmUp_batches (verbose : Bool) (send : SendOracle) (env : Env)
    (fs : List FunctionTarget) :
    (warmUp verbose send env fs).batches = fs.map (runFunctionBatch verbose send env) := rfl

theorem warmUp_batches_length (verbose : Bool) (send : SendOracle) (env : Env)
    (fs : List FunctionTarget) :
    (warmUp verbose send env fs).batches.length = fs.length := by
  simp [warmUp_batches]

/-! ## The claims -/

/-- C2: for every non-empty function list `F`, the invoke-permission
statement of the emitted IAM policy has a `Resource` list with exactly `|F|`
entries, in the order of `F`, the `i`-th being the wildcard ARN pattern
ending in `function:<F[i].name>*`; and that statement is the third statement
of the inline policy of the emitted role document. -/
theorem c2_invoke_resource_list (F : List FnRef) (hne : F ≠ []) :
    (invokeResourceEntries F).length = F.length
    ∧ (∀ i fn, F.get? i = some fn →
        (invokeResourceEntries F).get? i = some (Json.obj [("Fn::Sub", Json.str
          ("arn:$\x7bAWS::Partition\x7d:lambda:$\x7bAWS::Region\x7d:$\x7bAWS::AccountId\x7d:function:"
            ++ fn.name ++ "*"))]))
    ∧ (invokePolicyStatement F).lookupKey "Resource" = some (.arr (invokeResourceEntries F))
    ∧ (∀ svc stage w (wc : WarmerConfig), wc.functions = F →
        ((((((warmUpRoleResource svc stage w wc).lookupKey "Properties").bind
          (Json.lookupKey · "Policies")).bind (Json.item · 0)).bind
          (Json.lookupKey · "PolicyDocument")).bind (Json.lookupKey · "Statement")).bind
          (Json.item · 2) = some (invokePolicyStatement F)) := by
  refine ⟨by simp [invokeResourceEntries], ?_, rfl, ?_⟩
  · intro i fn hf
    have hm : (invokeResourceEntries F).get? i =
        (F.get? i).map (fun fn => Json.obj [("Fn::Sub", Json.str (lambdaInvokeArnPattern fn.name))]) :=
      List.get?_map _ _ _
    rw [hm, hf]
    rfl
  · intro svc stage w wc hwc
    subst hwc
    rfl

theorem c2_witness :
    (invokeResourceEntries [⟨"foo"⟩, ⟨"bar"⟩]).length = 2
    ∧ (invokeResourceEntries [⟨"foo"⟩, ⟨"bar"⟩]).get? 1 = some (Json.obj [("Fn::Sub", Json.str
        "arn:$\x7bAWS::Partition\x7d:lambda:$\x7bAWS::Region\x7d:$\x7bAWS::AccountId\x7d:function:bar*")]) := by
  have h := c2_invoke_resource_list [⟨"foo"⟩, ⟨"bar"⟩] (List.cons_ne_nil _ _)
  exact ⟨h.1, h.2.1 1 ⟨"bar"⟩ rfl⟩

/-- C7: the rendered artifact is a deterministic pure function of the input
tuple (function list, tracing, verbose, region, handler folder): two runs on
identical inputs produce byte-identical script text (and the same file name
and provisioning commands). -/
theorem c7_artifact_deterministic (f₁ f₂ : Json) (t₁ t₂ v₁ v₂ : Bool)
    (r₁ r₂ d₁ d₂ : String)
    (hf : f₁ = f₂) (ht : t₁ = t₂) (hv : v₁ = v₂) (hr : r₁ = r₂) (hd : d₁ = d₂) :
    createWarmUpFunctionArtifact f₁ t₁ v₁ r₁ d₁ = createWarmUpFunctionArtifact f₂ t₂ v₂ r₂ d₂ := by
  subst hf; subst ht; subst hv; subst hr; subst hd; rfl

theorem c7_witness :
    createWarmUpFunctionArtifact (Json.arr [Json.obj [("name", Json.str "foo")]]) false true
        "us-east-1" "wh" =
      createWarmUpFunctionArtifact (Json.arr [Json.obj [("name", Json.str "foo")]]) false true
        "us-east-1" "wh" :=
  c7_artifact_deterministic _ _ _ _ _ _ _ _ _ _ rfl rfl rfl rfl rfl

/-- C8: with tracing enabled the generated script imports the tracing
wrapper from module `aws-xray-sdk` (the fragment spliced into the script),
while the dependency-provisioning step installs the package
`aws-xray-sdk-core`; the imported module name and the installed package name
are not the same. -/
theorem c8_import_install_mismatch :
    xrayImportedModule ≠ xrayInstalledPackage
    ∧ clientSelection true =
        "import * as AWSXRay from \x27" ++ xrayImportedModule ++ "\x27;\n"
          ++ "const lambdaClient = AWSXRay.captureAWSv3Client(uninstrumentedLambdaClient);"
    ∧ installCommands true = ["npm init -y", "npm install --save " ++ xrayInstalledPackage] :=
  ⟨by decide, rfl, rfl⟩

/-- C3: concurrency resolution precedence in the generated script — a
truthy per-function variable `WARMUP_CONCURRENCY_<NAME>` (name upper-cased,
hyphens to underscores) beats the global `WARMUP_CONCURRENCY`, which beats
the baked `config.concurrency`; and whenever the resolved concurrency is a
natural number `n` (a valid array length), the batch issues exactly `n`
invocation requests, all built on the function's own name. -/
theorem c3_concurrency_precedence (verbose : Bool) (send : SendOracle) (env : Env)
    (func : FunctionTarget) :
    (∀ s, env.lookup (perFunctionConcurrencyKey func.name) = some s → s ≠ "" →
      (getConcurrency verbose func env).1 = parseIntJS s)
    ∧ (envTruthy (env.lookup (perFunctionConcurrencyKey func.name)) = false →
        ∀ s, env.lookup "WARMUP_CONCURRENCY" = some s → s ≠ "" →
          (getConcurrency verbose func env).1 = parseIntJS s)
    ∧ (envTruthy (env.lookup (perFunctionConcurrencyKey func.name)) = false →
        envTruthy (env.lookup "WARMUP_CONCURRENCY") = false →
          (getConcurrency verbose func env).1 = parseIntJS func.config.concurrency)
    ∧ (∀ n : Nat, (getConcurrency verbose func env).1 = some (n : Int) →
        (n : Int) < 4294967296 →
          (runFunctionBatch verbose send env func).issued = n
          ∧ (runFunctionBatch verbose send env func).command.FunctionName = func.name) := by
  refine ⟨fun s hs hne => getConcurrency_perFunction verbose func env s hs hne,
          fun h s hs hne => getConcurrency_global verbose func env h s hs hne,
          fun h₁ h₂ => getConcurrency_static verbose func env h₁ h₂,
          fun n h hlt => ⟨runFunctionBatch_issued_of_nat verbose send env func n h hlt, ?_⟩⟩
  rw [runFunctionBatch_command]
  rfl

/-- Target function used in the concrete witnesses: statically configured
concurrency 5. -/
def fooTarget : FunctionTarget := ⟨"foo", { concurrency := "5" }⟩

theorem c3_witness :
    (getConcurrency true fooTarget [("WARMUP_CONCURRENCY_FOO", "3")]).1 = some 3
    ∧ (getConcurrency true fooTarget [("WARMUP_CONCURRENCY", "2")]).1 = some 2
    ∧ (runFunctionBatch true (fun _ _ => none) [] fooTarget).issued = 5 := by
  refine ⟨?_, ?_, ?_⟩
  · rw [(c3_concurrency_precedence true (fun _ _ => none)
      [("WARMUP_CONCURRENCY_FOO", "3")] fooTarget).1 "3" (by decide) (by decide)]
    decide
  · rw [(c3_concurrency_precedence true (fun _ _ => none)
      [("WARMUP_CONCURRENCY", "2")] fooTarget).2.1 (by decide) "2" (by decide) (by decide)]
    decide
  · exact ((c3_concurrency_precedence true (fun _ _ => none) [] fooTarget).2.2.2 5
      (by decide) (by decide)).1

/-- C4: a non-numeric per-function override string parses to the
not-a-number sentinel, which is used as-is; the batch then issues zero
invocation requests and the run does not crash — the entry point still
completes, producing one batch result per embedded function and the final
summary. -/
theorem c4_nonnumeric_override (verbose : Bool) (send : SendOracle) (env : Env)
    (func : FunctionTarget) (s : String)
    (hs : env.lookup (perFunctionConcurrencyKey func.name) = some s)
    (hne : s ≠ "") (hnan : parseIntJS s = none) :
    (getConcurrency verbose func env).1 = none
    ∧ (runFunctionBatch verbose send env func).issued = 0
    ∧ (∀ fs : List FunctionTarget,
        (warmUp verbose send env fs).batches.length = fs.length
        ∧ (warmUp verbose send env fs).summaryLog = logVerbose verbose
            ("Warm Up Finished with "
              ++ toString (invokeErrors ((warmUp verbose send env fs).batches))
              ++ " invoke errors")) := by
  have hval : (getConcurrency verbose func env).1 = none := by
    rw [getConcurrency_perFunction verbose func env s hs hne, hnan]
  exact ⟨hval, runFunctionBatch_issued_zero_of_nan verbose send env func hval,
    fun fs => ⟨warmUp_batches_length verbose send env fs, rfl⟩⟩

theorem c4_witness :
    (getConcurrency true fooTarget [("WARMUP_CONCURRENCY_FOO", "abc")]).1 = none
    ∧ (runFunctionBatch true (fun _ _ => none) [("WARMUP_CONCURRENCY_FOO", "abc")]
        fooTarget).issued = 0
    ∧ (warmUp true (fun _ _ => none) [("WARMUP_CONCURRENCY_FOO", "abc")]
        [fooTarget]).batches.length = 1 := by
  have h := c4_nonnumeric_override true (fun _ _ => none)
    [("WARMUP_CONCURRENCY_FOO", "abc")] fooTarget "abc" (by decide) (by decide) (by decide)
  exact ⟨h.1, h.2.1, (h.2.2 [fooTarget]).1⟩

/-- C10: a resolved concurrency of 0 — for example an environment override
set to the string "0" — issues zero invocation requests yet the batch counts
as a success: it returns `true`, logs nothing to the error channel, and
adding such a function to a run leaves the aggregate failure count
unchanged. -/
theorem c10_zero_concurrency (verbose : Bool) (send : SendOracle) (env : Env)
    (func : FunctionTarget) (h : (getConcurrency verbose func env).1 = some 0) :
    (runFunctionBatch verbose send env func).issued = 0
    ∧ (runFunctionBatch verbose send env func).result = true
    ∧ (runFunctionBatch verbose send env func).errorLog = []
    ∧ ∀ pre post, invokeErrors ((warmUp verbose send env (pre ++ func :: post)).batches)
        = invokeErrors ((warmUp verbose send env (pre ++ post)).batches) := by
  have hb : runFunctionBatch verbose send env func =
      { command := buildInvokeCommand func env, issued := 0, result := true,
        verboseLog := (getConcurrency verbose func env).2
          ++ logVerbose verbose ("Warm Up Invoke Success: " ++ func.name),
        errorLog := [] } := by
    simp only [runFunctionBatch, h]
    rfl
  refine ⟨by rw [hb], by rw [hb], by rw [hb], ?_⟩
  intro pre post
  simp [invokeErrors, warmUp_batches, List.map_append, List.filter_append, hb]

theorem c10_witness :
    (runFunctionBatch true (fun _ _ => none) [("WARMUP_CONCURRENCY_FOO", "0")]
        fooTarget).issued = 0
    ∧ (runFunctionBatch true (fun _ _ => none) [("WARMUP_CONCURRENCY_FOO", "0")]
        fooTarget).result = true
    ∧ invokeErrors ((warmUp true (fun _ _ => none) [("WARMUP_CONCURRENCY_FOO", "0")]
        ([] ++ fooTarget :: [])).batches)
      = invokeErrors ((warmUp true (fun _ _ => none) [("WARMUP_CONCURRENCY_FOO", "0")]
        ([] ++ [])).batches) := by
  have h := c10_zero_concurrency true (fun _ _ => none) [("WARMUP_CONCURRENCY_FOO", "0")]
    fooTarget (by decide)
  exact ⟨h.1, h.2.1, h.2.2.2 [] []⟩

theorem getConcurrency_log_silent (func : FunctionTarget) (env : Env) :
    (getConcurrency false func env).2 = [] := by
  simp only [getConcurrency]
  cases h₁ : envTruthy (env.lookup (perFunctionConcurrencyKey func.name)) <;>
    cases h₂ : envTruthy (env.lookup "WARMUP_CONCURRENCY") <;>
      simp [h₁, h₂, logVerbose]

theorem runFunctionBatch_verboseLog_silent (send : SendOracle) (env : Env)
    (func : FunctionTarget) :
    (runFunctionBatch false send env func).verboseLog = [] := by
  simp only [runFunctionBatch]
  split
  · exact getConcurrency_log_silent func env
  · split <;> simp [getConcurrency_log_silent, logVerbose]

theorem runFunctionBatch_errorLog_verbose_irrel (send : SendOracle) (env : Env)
    (func : FunctionTarget) :
    (runFunctionBatch false send env func).errorLog
      = (runFunctionBatch true send env func).errorLog := by
  have hv : (getConcurrency false func env).1 = (getConcurrency true func env).1 :=
    getConcurrency_val_verbose_irrel false true func env
  simp only [runFunctionBatch, hv]
  split
  · rfl
  · split <;> rfl

/-- C9: in a script generated with verbose=false the logging helper is a
no-op — no start line, no per-function success line and no final summary are
emitted — while a batch failure is still written to the error channel
identically to the verbose script, independent of the flag. -/
theorem c9_verbose_false_silent (send : SendOracle) (env : Env)
    (func : FunctionTarget) (fs : List FunctionTarget) :
    (∀ s, logVerbose false s = [])
    ∧ (runFunctionBatch false send env func).verboseLog = []
    ∧ (warmUp false send env fs).startLog = []
    ∧ (warmUp false send env fs).summaryLog = []
    ∧ (runFunctionBatch false send env func).errorLog
        = (runFunctionBatch true send env func).errorLog :=
  ⟨fun _ => rfl, runFunctionBatch_verboseLog_silent send env func, rfl, rfl,
    runFunctionBatch_errorLog_verbose_irrel send env func⟩

/-- C6: shape of every invocation request built by the generated script —
the client context prefers `config.clientContext` and falls back to
`config.payload` only when the former is undefined; a present (truthy)
value is base64-encoded inside a `\x7b"custom": ...\x7d` envelope, and the
header is omitted when both are absent; the qualifier is `config.alias`
falling back to the `SERVERLESS_ALIAS` environment variable; the payload is
`config.payload` verbatim. -/
theorem c6_invoke_request_shape (func : FunctionTarget) (env : Env) :
    (∀ c, func.config.clientContext = some c → c ≠ "" →
      (buildInvokeCommand func env).ClientContext
        = some (base64EncodeStr ("\x7b\"custom\":" ++ c ++ "\x7d")))
    ∧ (func.config.clientContext = none →
        ∀ p, func.config.payload = some p → p ≠ "" →
          (buildInvokeCommand func env).ClientContext
            = some (base64EncodeStr ("\x7b\"custom\":" ++ p ++ "\x7d")))
    ∧ (func.config.clientContext = none → func.config.payload = none →
        (buildInvokeCommand func env).ClientContext = none)
    ∧ (∀ a, func.config.«alias» = some a → a ≠ "" →
        (buildInvokeCommand func env).Qualifier = some a)
    ∧ ((∀ a, func.config.«alias» = some a → a = "") →
        (buildInvokeCommand func env).Qualifier = env.lookup "SERVERLESS_ALIAS")
    ∧ (buildInvokeCommand func env).Payload = func.config.payload
    ∧ (buildInvokeCommand func env).FunctionName = func.name
    ∧ (buildInvokeCommand func env).InvocationType = "RequestResponse"
    ∧ (buildInvokeCommand func env).LogType = "None" := by
  refine ⟨?_, ?_, ?_, ?_, ?_, rfl, rfl, rfl, rfl⟩
  · intro c hc hcne
    simp [buildInvokeCommand, hc, hcne]
  · intro hcc p hp hpne
    simp [buildInvokeCommand, hcc, hp, hpne]
  · intro hcc hp
    simp [buildInvokeCommand, hcc, hp]
  · intro a ha hane
    simp [buildInvokeCommand, ha, hane]
  · intro hfa
    cases ha : func.config.«alias» with
    | none => simp [buildInvokeCommand, ha]
    | some a =>
      have : a = "" := hfa a ha
      subst this
      simp [buildInvokeCommand, ha]

/-- Target function used in the C6 witness: a JSON-string client context,
payload and alias all present. -/
def ctxTarget : FunctionTarget :=
  ⟨"foo", { concurrency := "1", clientContext := some "\"x\"",
            payload := some "\"p\"", «alias» := some "live" }⟩

theorem c6_witness :
    (buildInvokeCommand ctxTarget [("SERVERLESS_ALIAS", "prod")]).ClientContext
        = some (base64EncodeStr ("\x7b\"custom\":" ++ "\"x\"" ++ "\x7d"))
    ∧ (buildInvokeCommand ctxTarget [("SERVERLESS_ALIAS", "prod")]).Qualifier = some "live"
    ∧ (buildInvokeCommand ctxTarget [("SERVERLESS_ALIAS", "prod")]).Payload = some "\"p\"" := by
  have h := c6_invoke_request_shape ctxTarget [("SERVERLESS_ALIAS", "prod")]
  exact ⟨h.1 "\"x\"" rfl (by decide), h.2.2.2.1 "live" rfl (by decide), h.2.2.2.2.2.1⟩

theorem runFunctionBatch_errorLog_of_failed (verbose : Bool) (send : SendOracle)
    (env : Env) (func : FunctionTarget) :
    (runFunctionBatch verbose send env func).result = false →
      ∃ e, (runFunctionBatch verbose send env func).errorLog
        = [("Warm Up Invoke Error: " ++ func.name, e)] := by
  simp only [runFunctionBatch]
  split
  · intro _
    exact ⟨_, rfl⟩
  · split
    · intro hc
      simp at hc
    · intro _
      exact ⟨_, rfl⟩

theorem runFunctionBatch_send_congr (verbose : Bool) (send send' : SendOracle)
    (env : Env) (func : FunctionTarget)
    (h : ∀ k, send' (buildInvokeCommand func env) k = send (buildInvokeCommand func env) k) :
    runFunctionBatch verbose send' env func = runFunctionBatch verbose send env func := by
  have hfun : (fun i => send' (buildInvokeCommand func env) i)
      = (fun i => send (buildInvokeCommand func env) i) := funext h
  simp only [runFunctionBatch]
  rw [hfun]

/-- C5: per-function failure isolation in the generated entry point — a
failed batch logs an error naming its function, contributes `false` at its
own position, leaves every other function's batch outcome untouched (it
depends only on that function's own send outcomes), never prevents the run
from producing a result for every function, and the aggregate count of
`false` results is what the summary reports. -/
theorem c5_failure_isolation (verbose : Bool) (send send' : SendOracle) (env : Env)
    (fs : List FunctionTarget) (i : Nat) (fi : FunctionTarget)
    (hfi : fs.get? i = some fi)
    (hfail : (runFunctionBatch verbose send env fi).result = false)
    (hagree : ∀ j fj, j ≠ i → fs.get? j = some fj →
      ∀ k, send' (buildInvokeCommand fj env) k = send (buildInvokeCommand fj env) k) :
    (∃ e, (runFunctionBatch verbose send env fi).errorLog
        = [("Warm Up Invoke Error: " ++ fi.name, e)])
    ∧ ((warmUp verbose send env fs).batches.get? i).map (·.result) = some false
    ∧ (∀ j, j ≠ i →
        (warmUp verbose send' env fs).batches.get? j
          = (warmUp verbose send env fs).batches.get? j)
    ∧ (warmUp verbose send env fs).batches.length = fs.length
    ∧ (warmUp verbose send env fs).summaryLog = logVerbose verbose
        ("Warm Up Finished with "
          ++ toString (invokeErrors ((warmUp verbose send env fs).batches))
          ++ " invoke errors") := by
  refine ⟨runFunctionBatch_errorLog_of_failed verbose send env fi hfail, ?_, ?_,
    warmUp_batches_length verbose send env fs, rfl⟩
  · rw [warmUp_batches, List.get?_map, hfi]
    simp [Option.map_some, hfail]
  · intro j hj
    rw [warmUp_batches, warmUp_batches, List.get?_map, List.get?_map]
    cases hgj : fs.get? j with
    | none => rfl
    | some fj =>
      simp [runFunctionBatch_send_congr verbose send send' env fj (hagree j fj hj hgj)]

/-- Send oracle used in the C5 witness: every invocation of function "bar"
rejects, every other send fulfils. -/
def sendBarFails : SendOracle :=
  fun cmd _ => if cmd.FunctionName = "bar" then some "boom" else none

/-- Witness targets: two functions with static concurrency 1. -/
def fooOne : FunctionTarget := ⟨"foo", { concurrency := "1" }⟩

def barOne : FunctionTarget := ⟨"bar", { concurrency := "1" }⟩

theorem c5_witness :
    (∃ e, (runFunctionBatch true sendBarFails [] barOne).errorLog
        = [("Warm Up Invoke Error: " ++ barOne.name, e)])
    ∧ ((warmUp true sendBarFails [] [fooOne, barOne]).batches.get? 1).map (·.result)
        = some false
    ∧ (warmUp true sendBarFails [] [fooOne, barOne]).batches.length = 2
    ∧ ((warmUp true sendBarFails [] [fooOne, barOne]).batches.get? 0).map (·.result)
        = some true
    ∧ invokeErrors ((warmUp true sendBarFails [] [fooOne, barOne]).batches) = 1 := by
  have h := c5_failure_isolation true sendBarFails sendBarFails [] [fooOne, barOne] 1 barOne
    (by decide) (by decide) (fun j fj hj hfj k => rfl)
  exact ⟨h.1, h.2.1, h.2.2.2.1, by decide, by decide⟩

theorem lookup_condSeg_ne (k key : String) (o : Option Json) (keep : Json → Bool)
    (h : k ≠ key) : List.lookup k (condSeg key o keep) = none := by
  have hk : (k == key) = false := by
    simp only [beq_eq_false_iff_ne]
    exact h
  unfold condSeg
  cases o with
  | none => rfl
  | some j =>
    by_cases hj : keep j = true
    · simp [hj, List.lookup, hk]
    · simp [hj, List.lookup]

theorem roleLogicalName_ne_empty (w : String) : roleLogicalName w ≠ "" := by
  intro h
  have hl := congrArg String.length h
  simp only [roleLogicalName, String.length_append] at hl
  have h1 : ("WarmUpPlugin" : String).length = 12 := rfl
  have h2 : ("Role" : String).length = 4 := rfl
  have h3 : ("" : String).length = 0 := rfl
  omega

theorem functionManifestEntry_role (warmerName : String) (wc : WarmerConfig) (sep : Char)
    (r : String) (hr : wc.role = some r) (hne : r ≠ "") :
    (functionManifestEntry warmerName wc sep).lookupKey "role" = some (Json.str r) := by
  have hro : condSeg "role" (wc.role.map Json.str) Json.truthy = [("role", Json.str r)] := by
    rw [hr]
    simp [condSeg, Json.truthy, hne]
  have h1 : List.lookup "role"
      [("description", Json.str ("Serverless WarmUp Plugin (warmer \"" ++ warmerName ++ "\")")),
       ("events", wc.events),
       ("handler", Json.str (toPosixPath sep wc.pathHandler)),
       ("memorySize", wc.memorySize),
       ("name", Json.str wc.name)] = none := rfl
  have h2 : List.lookup "role" (condSeg "architecture" wc.architecture Json.truthy) = none :=
    lookup_condSeg_ne _ _ _ _ (by decide)
  have h3 : List.lookup "role"
      [("runtime", Json.str "nodejs22.x"), ("package", wc.package), ("timeout", wc.timeout)]
      = none := rfl
  have h4 : List.lookup "role"
      (if wc.environment.length ≠ 0 then [("environment", Json.obj wc.environment)] else [])
      = none := by
    split <;> rfl
  have h5 : List.lookup "role" (condSeg "tracing" wc.tracing keepAlways) = none :=
    lookup_condSeg_ne _ _ _ _ (by decide)
  have h6 : List.lookup "role" (condSeg "logRetentionInDays" wc.logRetentionInDays keepAlways)
      = none := lookup_condSeg_ne _ _ _ _ (by decide)
  have h7 : List.lookup "role" (condSeg "roleName" wc.roleName Json.truthy) = none :=
    lookup_condSeg_ne _ _ _ _ (by decide)
  have h8 : List.lookup "role" [("role", Json.str r)] = some (Json.str r) := rfl
  simp only [functionManifestEntry, Json.lookupKey, hro, List.append_assoc]
  simp only [lookup_append, h1, h2, h3, h4, h5, h6, h7, h8]

/-- C1: for every warmer name W, after the role synthesizer runs,
`warmerConfig.role` equals `WarmUpPlugin` + PascalCase(W) + `Role`, the role
document is inserted into `service.resources.Resources` under exactly that
key, and the function-manifest entry produced by
`addWarmUpFunctionToService` carries the same identifier in its `role`
field. -/
theorem c1_role_identifier (service : Service) (stage warmerName : String)
    (wc : WarmerConfig) (sep : Char) :
    ((addWarmUpFunctionRoleToResources service stage warmerName wc).2).role
        = some ("WarmUpPlugin" ++ capitalize warmerName ++ "Role")
    ∧ serviceResource (addWarmUpFunctionRoleToResources service stage warmerName wc).1
        ("WarmUpPlugin" ++ capitalize warmerName ++ "Role")
        = some (warmUpRoleResource service.service stage warmerName
            (addWarmUpFunctionRoleToResources service stage warmerName wc).2)
    ∧ (addWarmUpFunctionToService
          (addWarmUpFunctionRoleToResources service stage warmerName wc).1
          warmerName (addWarmUpFunctionRoleToResources service stage warmerName wc).2
          sep).functions.lookup ("warmUpPlugin" ++ capitalize warmerName)
        = some (functionManifestEntry warmerName
            (addWarmUpFunctionRoleToResources service stage warmerName wc).2 sep)
    ∧ (functionManifestEntry warmerName
          (addWarmUpFunctionRoleToResources service stage warmerName wc).2 sep).lookupKey
        "role" = some (Json.str ("WarmUpPlugin" ++ capitalize warmerName ++ "Role")) := by
  refine ⟨rfl, ?_, ?_, ?_⟩
  · simp only [addWarmUpFunctionRoleToResources, serviceResource, roleLogicalName]
    exact lookup_setKey_self _ _ _
  · simp only [addWarmUpFunctionToService]
    exact lookup_setKey_self _ _ _
  · exact functionManifestEntry_role warmerName _ sep _ rfl
      (roleLogicalName_ne_empty warmerName)
